import Mathlib

/-!
Shallow embedding of the decision engine of the trading-bot server:
the signal analyzers and consensus engine of src/bot/analysisEngine.js,
the position-lifecycle and sizing logic of src/bot/tradingBot.js,
the Fibonacci support/resistance computation of
src/bot/fibonacciCalculator.js, and the RSI indicator of
src/services/technicalIndicators.js.

JavaScript numbers are modelled as rationals (ℚ); array reads that can
yield JS `undefined` are modelled with `Option ℚ`, and comparisons
against `undefined` are `false`, as in JavaScript.
-/

/-- Trade direction tag used throughout the analysis engine. -/
inductive Direction where
  | BUY
  | SELL
  | NEUTRAL
  deriving DecidableEq, Repr

/-- Named directional signal emitted by an analyzer
(`signals.push(\x7bname, direction, strength\x7d)` in analysisEngine.js). -/
structure Signal where
  name : String
  direction : Direction
  strength : ℚ
  deriving DecidableEq, Repr

/-- Result returned by one analyzer: direction, confidence and the emitted
signal list.  The numeric `values` snapshots of the source are omitted:
no claim mentions them. -/
structure AnalyzerResult where
  direction : Direction
  confidence : ℚ
  signals : List Signal
  deriving DecidableEq, Repr

/-- One entry of `results.analyses` in `performTechnicalAnalysis`:
an analyzer name, its result and its fixed weight. -/
structure NamedAnalysis where
  name : String
  result : AnalyzerResult
  weight : ℚ
  deriving DecidableEq, Repr

/-- Danger signal collected by `calculateFinalResult`. -/
structure DangerSignal where
  name : String
  importance : ℕ
  deriving DecidableEq, Repr

/-- JavaScript `Math.round`: round half toward positive infinity. -/
def jsRound (x : ℚ) : ℤ := ⌊x + 1 / 2⌋

/-- Summed strength of the BUY signals
(`buySignals.reduce((sum, s) => sum + s.strength, 0)` over
`signals.filter((s) => s.direction === "BUY")`). -/
def buyStrength (signals : List Signal) : ℚ :=
  ((signals.filter (fun s => s.direction == Direction.BUY)).map
    (fun s => s.strength)).sum

/-- Summed strength of the SELL signals. -/
def sellStrength (signals : List Signal) : ℚ :=
  ((signals.filter (fun s => s.direction == Direction.SELL)).map
    (fun s => s.strength)).sum

/-- Shared scoring block that every analyzer in analysisEngine.js repeats
verbatim (with its own cap): starting from direction NEUTRAL and
confidence 50, if the signal list is non-empty and one side's summed
strength exceeds the other's, pick that side with confidence
`min(cap, 50 + Math.round((diff) / 2))`. -/
def scoreSignals (cap : ℚ) (signals : List Signal) : Direction × ℚ :=
  if signals.length > 0 then
    if buyStrength signals > sellStrength signals then
      (Direction.BUY,
        min cap (50 + (jsRound ((buyStrength signals - sellStrength signals) / 2) : ℚ)))
    else if sellStrength signals > buyStrength signals then
      (Direction.SELL,
        min cap (50 + (jsRound ((sellStrength signals - buyStrength signals) / 2) : ℚ)))
    else
      (Direction.NEUTRAL, 50)
  else
    (Direction.NEUTRAL, 50)

/-- Test used by the danger-signal scan of `calculateFinalResult`:
`result.signals.some((s) => s.name === n && s.strength >= thr)`. -/
def hasSignalGe (signals : List Signal) (n : String) (thr : ℚ) : Bool :=
  signals.any (fun s => s.name == n && decide (thr ≤ s.strength))

/-- Danger signals contributed by one analysis entry, in the order the
loop body of `calculateFinalResult` pushes them. -/
def dangerOf (a : NamedAnalysis) : List DangerSignal :=
  (if a.name == "Bollinger Bands" &&
      hasSignalGe a.result.signals "Price Above Upper Band" 70 then
    [⟨"Extreme Overbought on Bollinger Bands", 8⟩] else []) ++
  (if a.name == "Bollinger Bands" &&
      hasSignalGe a.result.signals "Price Below Lower Band" 70 then
    [⟨"Extreme Oversold on Bollinger Bands", 8⟩] else []) ++
  (if a.name == "RSI" &&
      hasSignalGe a.result.signals "RSI Overbought" 75 then
    [⟨"Extreme Overbought on RSI", 7⟩] else []) ++
  (if a.name == "RSI" &&
      hasSignalGe a.result.signals "RSI Oversold" 75 then
    [⟨"Extreme Oversold on RSI", 7⟩] else []) ++
  (if a.name == "Volume" &&
      hasSignalGe a.result.signals "Volume Climax" 70 then
    [⟨"Volume Climax Detected", 9⟩] else [])

/-- Accumulated `totalWeight` of `calculateFinalResult`. -/
def totalWeight (analyses : List NamedAnalysis) : ℚ :=
  (analyses.map (fun a => a.weight)).sum

/-- Accumulated `totalBuyWeight` of `calculateFinalResult`:
`weight * (confidence / 100)` summed over BUY analyzers. -/
def totalBuyWeight (analyses : List NamedAnalysis) : ℚ :=
  (analyses.map (fun a =>
    if a.result.direction == Direction.BUY then
      a.weight * (a.result.confidence / 100)
    else 0)).sum

/-- Accumulated `totalSellWeight` of `calculateFinalResult`. -/
def totalSellWeight (analyses : List NamedAnalysis) : ℚ :=
  (analyses.map (fun a =>
    if a.result.direction == Direction.SELL then
      a.weight * (a.result.confidence / 100)
    else 0)).sum

/-- Output of `calculateFinalResult`. -/
structure FinalResult where
  direction : Direction
  confidence : ℚ
  dangerSignals : List DangerSignal
  deriving DecidableEq, Repr

/-- Consensus engine `calculateFinalResult` of analysisEngine.js:
normalized weighted buy/sell scores, the 0.1 decision margin, the
50–100 confidence clamp, and the danger-signal scan. -/
def calculateFinalResult (analyses : List NamedAnalysis) : FinalResult :=
  let buyScore := totalBuyWeight analyses / totalWeight analyses
  let sellScore := totalSellWeight analyses / totalWeight analyses
  let raw : Direction × ℚ :=
    if buyScore > sellScore + 1 / 10 then
      (Direction.BUY, (jsRound (buyScore * 100) : ℚ))
    else if sellScore > buyScore + 1 / 10 then
      (Direction.SELL, (jsRound (sellScore * 100) : ℚ))
    else
      (Direction.NEUTRAL, 50)
  { direction := raw.1
    confidence := min 100 (max 50 raw.2)
    dangerSignals := (analyses.map dangerOf).flatten }

/-- C1: with a positive total weight, whenever the normalized weighted buy
and sell scores differ by at most 0.10 the consensus is NEUTRAL with
confidence exactly 50, and whenever one score exceeds the other by more
than 0.10 the consensus is that direction with confidence
`round(score * 100)` clamped to [50, 100]. -/
theorem calculateFinalResult_margin (analyses : List NamedAnalysis)
    (hw : 0 < totalWeight analyses) :
    (|totalBuyWeight analyses / totalWeight analyses -
        totalSellWeight analyses / totalWeight analyses| ≤ 1 / 10 →
      (calculateFinalResult analyses).direction = Direction.NEUTRAL ∧
      (calculateFinalResult analyses).confidence = 50) ∧
    (totalBuyWeight analyses / totalWeight analyses >
        totalSellWeight analyses / totalWeight analyses + 1 / 10 →
      (calculateFinalResult analyses).direction = Direction.BUY ∧
      (calculateFinalResult analyses).confidence =
        min 100 (max 50
          ((jsRound (totalBuyWeight analyses / totalWeight analyses * 100) : ℤ) : ℚ))) ∧
    (totalSellWeight analyses / totalWeight analyses >
        totalBuyWeight analyses / totalWeight analyses + 1 / 10 →
      (calculateFinalResult analyses).direction = Direction.SELL ∧
      (calculateFinalResult analyses).confidence =
        min 100 (max 50
          ((jsRound (totalSellWeight analyses / totalWeight analyses * 100) : ℤ) : ℚ))) := by
  set b := totalBuyWeight analyses / totalWeight analyses with hb
  set s := totalSellWeight analyses / totalWeight analyses with hs
  refine ⟨?_, ?_, ?_⟩
  · intro h
    rw [abs_le] at h
    have h1 : ¬ (b > s + 1 / 10) := by linarith [h.2]
    have h2 : ¬ (s > b + 1 / 10) := by linarith [h.1]
    simp only [calculateFinalResult, ← hb, ← hs, if_neg h1, if_neg h2]
    exact ⟨trivial, by norm_num⟩
  · intro h
    simp only [calculateFinalResult, ← hb, ← hs, if_pos h]
    exact ⟨trivial, trivial⟩
  · intro h
    have h1 : ¬ (b > s + 1 / 10) := by linarith
    simp only [calculateFinalResult, ← hb, ← hs, if_neg h1, if_pos h]
    exact ⟨trivial, trivial⟩

/-- Sample consensus input: the ten analyzers of
`performTechnicalAnalysis` with their fixed weights, all reporting
NEUTRAL at confidence 50. -/
def sampleAnalyses : List NamedAnalysis :=
  [⟨"Moving Averages", ⟨Direction.NEUTRAL, 50, []⟩, 15⟩,
   ⟨"RSI", ⟨Direction.NEUTRAL, 50, []⟩, 10⟩,
   ⟨"MACD", ⟨Direction.NEUTRAL, 50, []⟩, 12⟩,
   ⟨"Bollinger Bands", ⟨Direction.NEUTRAL, 50, []⟩, 10⟩,
   ⟨"Support/Resistance", ⟨Direction.NEUTRAL, 50, []⟩, 12⟩,
   ⟨"Volume", ⟨Direction.NEUTRAL, 50, []⟩, 8⟩,
   ⟨"Candlestick Patterns", ⟨Direction.NEUTRAL, 50, []⟩, 10⟩,
   ⟨"Fibonacci", ⟨Direction.NEUTRAL, 50, []⟩, 8⟩,
   ⟨"Trend Strength", ⟨Direction.NEUTRAL, 50, []⟩, 7⟩,
   ⟨"Market Sentiment", ⟨Direction.NEUTRAL, 50, []⟩, 8⟩]

/-- Witness for C1: on the all-NEUTRAL ten-analyzer input the scores tie,
so the consensus is NEUTRAL with confidence 50. -/
theorem calculateFinalResult_margin_witness :
    0 < totalWeight sampleAnalyses ∧
    (calculateFinalResult sampleAnalyses).direction = Direction.NEUTRAL ∧
    (calculateFinalResult sampleAnalyses).confidence = 50 :=
  ⟨by norm_num [totalWeight, sampleAnalyses],
   (calculateFinalResult_margin sampleAnalyses
      (by norm_num [totalWeight, sampleAnalyses])).1
    (by simp [totalWeight, totalBuyWeight, totalSellWeight, sampleAnalyses])⟩

/-- Position side as reported by the brokerage (`position.side`). -/
inductive Side where
  | long
  | short
  deriving DecidableEq, Repr

/-- Open position fields of tradingBot.js that `manageExistingPositions`
reads (the first entry of `data.openPositions`). -/
structure Position where
  side : Side
  avg_entry_price : ℚ
  current_price : ℚ
  qty : ℚ
  unrealized_pl : ℚ
  deriving DecidableEq, Repr

/-- Status written on a trade record. -/
inductive TradeStatus where
  | OPEN
  | CLOSED
  | CLOSED_REVERSAL
  | CLOSED_DANGER
  deriving DecidableEq, Repr

/-- Trade record written by `TradingDatabase.saveTrade` on a close. -/
structure TradeRecord where
  side : Side
  entryPrice : ℚ
  exitPrice : ℚ
  quantity : ℚ
  pnl : ℚ
  status : TradeStatus
  deriving DecidableEq, Repr

/-- Trade record that `manageExistingPositions` writes when it closes
`position` with status `st`. -/
def closedTradeRecord (position : Position) (st : TradeStatus) : TradeRecord :=
  { side := position.side
    entryPrice := position.avg_entry_price
    exitPrice := position.current_price
    quantity := position.qty
    pnl := position.unrealized_pl
    status := st }

/-- Consensus output fields that the position-lifecycle manager reads. -/
structure AnalysisOut where
  direction : Direction
  confidence : ℚ
  dangerSignals : List DangerSignal
  deriving DecidableEq, Repr

/-- Externally visible effects of one `manageExistingPositions` call, in
order: the brokerage close, the saved trade record, and the
`openNewPosition` call with the refreshed balance. -/
inductive BotEvent where
  | closedPosition
  | savedTrade (record : TradeRecord)
  | openedNewPosition (direction : Direction) (balance : ℚ)
  deriving DecidableEq, Repr

/-- Position-lifecycle step `manageExistingPositions` of tradingBot.js,
as the ordered list of effects it performs for one open position:
reversal close-and-reopen when the consensus direction differs from the
position's side at confidence ≥ 75, danger close when any danger signal
has importance ≥ 7, otherwise hold. -/
def manageExistingPositions (position : Position) (analysis : AnalysisOut)
    (refreshedBalance : ℚ) : List BotEvent :=
  let currentDirection :=
    if position.side == Side.long then Direction.BUY else Direction.SELL
  if analysis.direction != currentDirection && decide (75 ≤ analysis.confidence) then
    [BotEvent.closedPosition,
     BotEvent.savedTrade (closedTradeRecord position TradeStatus.CLOSED_REVERSAL),
     BotEvent.openedNewPosition analysis.direction refreshedBalance]
  else if !analysis.dangerSignals.isEmpty &&
      analysis.dangerSignals.any (fun s => decide (7 ≤ s.importance)) then
    [BotEvent.closedPosition,
     BotEvent.savedTrade (closedTradeRecord position TradeStatus.CLOSED_DANGER)]
  else
    []

/-- C2: when an open position exists and the consensus direction opposes
its side (long vs BUY, short vs SELL) at confidence ≥ 75, the lifecycle
manager closes the position writing a trade record with status
CLOSED_REVERSAL and then opens a new position in the consensus direction
in the same cycle using the refreshed account balance. -/
theorem manageExistingPositions_reversal (position : Position)
    (analysis : AnalysisOut) (refreshedBalance : ℚ)
    (hop : (position.side = Side.long ∧ analysis.direction = Direction.SELL) ∨
           (position.side = Side.short ∧ analysis.direction = Direction.BUY))
    (hconf : 75 ≤ analysis.confidence) :
    manageExistingPositions position analysis refreshedBalance =
      [BotEvent.closedPosition,
       BotEvent.savedTrade (closedTradeRecord position TradeStatus.CLOSED_REVERSAL),
       BotEvent.openedNewPosition analysis.direction refreshedBalance] := by
  rcases hop with ⟨hside, hdir⟩ | ⟨hside, hdir⟩ <;>
    simp [manageExistingPositions, hside, hdir, hconf]

/-- Witness for C2: a long position against a SELL consensus at
confidence 80 is closed with CLOSED_REVERSAL and reopened as SELL. -/
theorem manageExistingPositions_reversal_witness :
    manageExistingPositions ⟨Side.long, 100, 101, 2, 2⟩
        ⟨Direction.SELL, 80, []⟩ 10000 =
      [BotEvent.closedPosition,
       BotEvent.savedTrade (closedTradeRecord ⟨Side.long, 100, 101, 2, 2⟩
         TradeStatus.CLOSED_REVERSAL),
       BotEvent.openedNewPosition Direction.SELL 10000] :=
  manageExistingPositions_reversal ⟨Side.long, 100, 101, 2, 2⟩
    ⟨Direction.SELL, 80, []⟩ 10000 (Or.inl ⟨rfl, rfl⟩) (by norm_num)

/-- Membership transfer: a danger signal contributed by one analysis entry
appears in the consensus output. -/
lemma mem_dangerSignals_of_mem (analyses : List NamedAnalysis)
    (a : NamedAnalysis) (d : DangerSignal) (ha : a ∈ analyses)
    (hd : d ∈ dangerOf a) :
    d ∈ (calculateFinalResult analyses).dangerSignals := by
  show d ∈ (analyses.map dangerOf).flatten
  exact List.mem_flatten.mpr ⟨dangerOf a, List.mem_map_of_mem _ ha, hd⟩

/-- A signal with the scanned name and at least the scanned strength makes
`hasSignalGe` true. -/
lemma hasSignalGe_of_mem (signals : List Signal) (s : Signal) (n : String)
    (thr : ℚ) (hs : s ∈ signals) (hn : s.name = n) (hstr : thr ≤ s.strength) :
    hasSignalGe signals n thr = true := by
  unfold hasSignalGe
  exact List.any_eq_true.mpr ⟨s, hs, by simp [hn, hstr]⟩

/-- C3: a Bollinger Bands result holding a "Price Above Upper Band" or
"Price Below Lower Band" signal of strength ≥ 70 always contributes a
danger signal of importance 8 (an RSI "RSI Overbought"/"RSI Oversold"
signal of strength ≥ 75 one of importance 7, a Volume "Volume Climax"
signal of strength ≥ 70 one of importance 9), independently of the final
direction; and when an open position's reversal condition fails, any
danger signal of importance ≥ 7 closes it with status CLOSED_DANGER. -/
theorem dangerSignals_extraction_and_close (analyses : List NamedAnalysis)
    (position : Position) (analysis : AnalysisOut) (refreshedBalance : ℚ) :
    ((∃ a ∈ analyses, a.name = "Bollinger Bands" ∧
        ∃ s ∈ a.result.signals, s.name = "Price Above Upper Band" ∧ 70 ≤ s.strength) →
      ∃ d ∈ (calculateFinalResult analyses).dangerSignals, d.importance = 8) ∧
    ((∃ a ∈ analyses, a.name = "Bollinger Bands" ∧
        ∃ s ∈ a.result.signals, s.name = "Price Below Lower Band" ∧ 70 ≤ s.strength) →
      ∃ d ∈ (calculateFinalResult analyses).dangerSignals, d.importance = 8) ∧
    ((∃ a ∈ analyses, a.name = "RSI" ∧
        ∃ s ∈ a.result.signals, s.name = "RSI Overbought" ∧ 75 ≤ s.strength) →
      ∃ d ∈ (calculateFinalResult analyses).dangerSignals, d.importance = 7) ∧
    ((∃ a ∈ analyses, a.name = "RSI" ∧
        ∃ s ∈ a.result.signals, s.name = "RSI Oversold" ∧ 75 ≤ s.strength) →
      ∃ d ∈ (calculateFinalResult analyses).dangerSignals, d.importance = 7) ∧
    ((∃ a ∈ analyses, a.name = "Volume" ∧
        ∃ s ∈ a.result.signals, s.name = "Volume Climax" ∧ 70 ≤ s.strength) →
      ∃ d ∈ (calculateFinalResult analyses).dangerSignals, d.importance = 9) ∧
    ((analysis.direction =
        (if position.side = Side.long then Direction.BUY else Direction.SELL) ∨
        analysis.confidence < 75) →
      (∃ d ∈ analysis.dangerSignals, 7 ≤ d.importance) →
      manageExistingPositions position analysis refreshedBalance =
        [BotEvent.closedPosition,
         BotEvent.savedTrade (closedTradeRecord position TradeStatus.CLOSED_DANGER)]) := by
  refine ⟨?_, ?_, ?_, ?_, ?_, ?_⟩
  · rintro ⟨a, ha, hname, s, hs, hsname, hstr⟩
    have hsg := hasSignalGe_of_mem _ s _ _ hs hsname hstr
    have hmem : (⟨"Extreme Overbought on Bollinger Bands", 8⟩ : DangerSignal) ∈
        dangerOf a := by
      simp [dangerOf, hname, hsg]
    exact ⟨_, mem_dangerSignals_of_mem analyses a _ ha hmem, rfl⟩
  · rintro ⟨a, ha, hname, s, hs, hsname, hstr⟩
    have hsg := hasSignalGe_of_mem _ s _ _ hs hsname hstr
    have hmem : (⟨"Extreme Oversold on Bollinger Bands", 8⟩ : DangerSignal) ∈
        dangerOf a := by
      simp [dangerOf, hname, hsg]
    exact ⟨_, mem_dangerSignals_of_mem analyses a _ ha hmem, rfl⟩
  · rintro ⟨a, ha, hname, s, hs, hsname, hstr⟩
    have hsg := hasSignalGe_of_mem _ s _ _ hs hsname hstr
    have hmem : (⟨"Extreme Overbought on RSI", 7⟩ : DangerSignal) ∈
        dangerOf a := by
      simp [dangerOf, hname, hsg]
    exact ⟨_, mem_dangerSignals_of_mem analyses a _ ha hmem, rfl⟩
  · rintro ⟨a, ha, hname, s, hs, hsname, hstr⟩
    have hsg := hasSignalGe_of_mem _ s _ _ hs hsname hstr
    have hmem : (⟨"Extreme Oversold on RSI", 7⟩ : DangerSignal) ∈
        dangerOf a := by
      simp [dangerOf, hname, hsg]
    exact ⟨_, mem_dangerSignals_of_mem analyses a _ ha hmem, rfl⟩
  · rintro ⟨a, ha, hname, s, hs, hsname, hstr⟩
    have hsg := hasSignalGe_of_mem _ s _ _ hs hsname hstr
    have hmem : (⟨"Volume Climax Detected", 9⟩ : DangerSignal) ∈
        dangerOf a := by
      simp [dangerOf, hname, hsg]
    exact ⟨_, mem_dangerSignals_of_mem analyses a _ ha hmem, rfl⟩
  · rintro hrev ⟨d, hd, himp⟩
    have hne : analysis.dangerSignals ≠ [] := List.ne_nil_of_mem hd
    have hany : analysis.dangerSignals.any
        (fun s => decide (7 ≤ s.importance)) = true :=
      List.any_eq_true.mpr ⟨d, hd, by simpa using himp⟩
    rcases hrev with hdir | hconf
    · cases hps : position.side <;> rw [hps] at hdir <;> simp at hdir <;>
        simp [manageExistingPositions, hps, hdir, hne, hany]
    · have hnc : ¬ (75 ≤ analysis.confidence) := not_le.mpr hconf
      simp [manageExistingPositions, hnc, hne, hany]

/-- Single-entry consensus input with a strength-70 "Price Above Upper
Band" signal on the Bollinger Bands analyzer. -/
def bbSample : List NamedAnalysis :=
  [⟨"Bollinger Bands",
    ⟨Direction.SELL, 70, [⟨"Price Above Upper Band", Direction.SELL, 70⟩]⟩, 10⟩]

/-- Witness for C3: the Bollinger breach yields an importance-8 danger
signal, and a held position with no reversal but an importance-8 danger
signal is closed with CLOSED_DANGER. -/
theorem dangerSignals_extraction_and_close_witness :
    (∃ d ∈ (calculateFinalResult bbSample).dangerSignals, d.importance = 8) ∧
    manageExistingPositions ⟨Side.long, 100, 99, 1, -1⟩
        ⟨Direction.BUY, 60, [⟨"Extreme Overbought on Bollinger Bands", 8⟩]⟩ 5000 =
      [BotEvent.closedPosition,
       BotEvent.savedTrade (closedTradeRecord ⟨Side.long, 100, 99, 1, -1⟩
         TradeStatus.CLOSED_DANGER)] := by
  constructor
  · exact (dangerSignals_extraction_and_close bbSample ⟨Side.long, 100, 99, 1, -1⟩
        ⟨Direction.BUY, 60, [⟨"Extreme Overbought on Bollinger Bands", 8⟩]⟩ 5000).1
      ⟨⟨"Bollinger Bands",
        ⟨Direction.SELL, 70, [⟨"Price Above Upper Band", Direction.SELL, 70⟩]⟩, 10⟩,
       by simp [bbSample], rfl,
       ⟨"Price Above Upper Band", Direction.SELL, 70⟩, by simp, rfl, by norm_num⟩
  · exact (dangerSignals_extraction_and_close bbSample ⟨Side.long, 100, 99, 1, -1⟩
        ⟨Direction.BUY, 60, [⟨"Extreme Overbought on Bollinger Bands", 8⟩]⟩ 5000).2.2.2.2.2
      (Or.inl (by simp)) ⟨⟨"Extreme Overbought on Bollinger Bands", 8⟩, by simp, by norm_num⟩

/-- Trading configuration of tradingBot.js. -/
structure TradingConfig where
  maxRiskPercent : ℚ
  minRiskPercent : ℚ
  maxLot : ℚ
  minLot : ℚ
  targetDailyGrowth : ℚ
  stopLossMultiplier : ℚ
  takeProfitMultiplier : ℚ
  deriving DecidableEq, Repr

/-- The `DEFAULT_CONFIG` constant of tradingBot.js. -/
def DEFAULT_CONFIG : TradingConfig :=
  { maxRiskPercent := 10
    minRiskPercent := 1 / 2
    maxLot := 10
    minLot := 1 / 100
    targetDailyGrowth := 30
    stopLossMultiplier := 1 / 2
    takeProfitMultiplier := 3 / 2 }

/-- Risk percentage interpolated from confidence in `openNewPosition`:
`(maxRiskPercent - minRiskPercent) * (confidence / 100) + minRiskPercent`. -/
def riskPercent (config : TradingConfig) (confidence : ℚ) : ℚ :=
  (config.maxRiskPercent - config.minRiskPercent) * (confidence / 100) +
    config.minRiskPercent

/-- Capital at risk in `openNewPosition`: `balance * (riskPercent / 100)`. -/
def riskAmount (config : TradingConfig) (balance confidence : ℚ) : ℚ :=
  balance * (riskPercent config confidence / 100)

/-- Lot multiplier interpolated from confidence in `openNewPosition`:
`(maxLot - minLot) * (confidence / 100) + minLot`. -/
def lotMultiplier (config : TradingConfig) (confidence : ℚ) : ℚ :=
  (config.maxLot - config.minLot) * (confidence / 100) + config.minLot

/-- Clamped order quantity of `openNewPosition`:
`Math.max(minLot, Math.min(maxLot, (riskAmount / price) * lotMultiplier))`. -/
def orderQuantity (config : TradingConfig) (balance currentPrice confidence : ℚ) : ℚ :=
  max config.minLot (min config.maxLot
    (riskAmount config balance confidence / currentPrice *
      lotMultiplier config confidence))

/-- Final `parseFloat(quantity.toFixed(6))` step of `openNewPosition`,
applied after the clamp: round to six decimal places (ties toward the
larger value, as positive quantities round in JavaScript). -/
def orderQuantityFixed6 (config : TradingConfig)
    (balance currentPrice confidence : ℚ) : ℚ :=
  (jsRound (orderQuantity config balance currentPrice confidence * 1000000) : ℚ) /
    1000000

/-- C4: for fixed positive balance and price and a config with
`0 < minRiskPercent ≤ maxRiskPercent` and `0 < minLot ≤ maxLot`, the
clamped order quantity is monotonically non-decreasing in confidence on
[50, 100] and always lies within [minLot, maxLot]. -/
theorem orderQuantity_monotone_bounded (config : TradingConfig)
    (balance price c₁ c₂ : ℚ)
    (hb : 0 < balance) (hp : 0 < price)
    (h1 : 0 < config.minRiskPercent)
    (h2 : config.minRiskPercent ≤ config.maxRiskPercent)
    (h3 : 0 < config.minLot) (h4 : config.minLot ≤ config.maxLot)
    (hc1 : 50 ≤ c₁) (hc12 : c₁ ≤ c₂) (hc2 : c₂ ≤ 100) :
    orderQuantity config balance price c₁ ≤ orderQuantity config balance price c₂ ∧
    config.minLot ≤ orderQuantity config balance price c₁ ∧
    orderQuantity config balance price c₁ ≤ config.maxLot := by
  have hmr : 0 ≤ config.maxRiskPercent - config.minRiskPercent := by linarith
  have hml : 0 ≤ config.maxLot - config.minLot := by linarith
  have h100 : c₁ / 100 ≤ c₂ / 100 := by linarith
  have hc1p : 0 ≤ c₁ / 100 := by linarith
  have hrp_mono : riskPercent config c₁ ≤ riskPercent config c₂ := by
    unfold riskPercent
    have := mul_le_mul_of_nonneg_left h100 hmr
    linarith
  have hrp_pos : 0 < riskPercent config c₁ := by
    unfold riskPercent
    have := mul_nonneg hmr hc1p
    linarith
  have hra_mono : riskAmount config balance c₁ ≤ riskAmount config balance c₂ := by
    unfold riskAmount
    have h5 : riskPercent config c₁ / 100 ≤ riskPercent config c₂ / 100 := by
      linarith
    exact mul_le_mul_of_nonneg_left h5 (le_of_lt hb)
  have hra_pos : 0 < riskAmount config balance c₁ := by
    unfold riskAmount
    positivity
  have hlot_mono : lotMultiplier config c₁ ≤ lotMultiplier config c₂ := by
    unfold lotMultiplier
    have := mul_le_mul_of_nonneg_left h100 hml
    linarith
  have hlot_pos : 0 < lotMultiplier config c₁ := by
    unfold lotMultiplier
    have := mul_nonneg hml hc1p
    linarith
  have hprod : riskAmount config balance c₁ / price * lotMultiplier config c₁ ≤
      riskAmount config balance c₂ / price * lotMultiplier config c₂ := by
    have hbase : riskAmount config balance c₁ / price ≤
        riskAmount config balance c₂ / price := by
      exact (div_le_div_iff_of_pos_right hp).mpr hra_mono
    exact mul_le_mul hbase hlot_mono (le_of_lt hlot_pos)
      (le_of_lt (div_pos (lt_of_lt_of_le hra_pos hra_mono) hp))
  refine ⟨?_, le_max_left _ _, max_le h4 (min_le_left _ _)⟩
  unfold orderQuantity
  exact max_le_max (le_refl _) (min_le_min (le_refl _) hprod)

/-- Witness for C4 at the default config, balance 10000, price 100,
confidences 60 ≤ 80. -/
theorem orderQuantity_monotone_bounded_witness :
    orderQuantity DEFAULT_CONFIG 10000 100 60 ≤
      orderQuantity DEFAULT_CONFIG 10000 100 80 ∧
    DEFAULT_CONFIG.minLot ≤ orderQuantity DEFAULT_CONFIG 10000 100 60 ∧
    orderQuantity DEFAULT_CONFIG 10000 100 60 ≤ DEFAULT_CONFIG.maxLot :=
  orderQuantity_monotone_bounded DEFAULT_CONFIG 10000 100 60 80
    (by norm_num) (by norm_num)
    (by norm_num [DEFAULT_CONFIG]) (by norm_num [DEFAULT_CONFIG])
    (by norm_num [DEFAULT_CONFIG]) (by norm_num [DEFAULT_CONFIG])
    (by norm_num) (by norm_num) (by norm_num)

/-- Partial configuration update passed to `updateConfig`; an absent field
leaves the current value in place, as the JS object spread
`\x7b ...config, ...newConfig \x7d` does. -/
structure PartialConfig where
  maxRiskPercent : Option ℚ := none
  minRiskPercent : Option ℚ := none
  maxLot : Option ℚ := none
  minLot : Option ℚ := none
  targetDailyGrowth : Option ℚ := none
  stopLossMultiplier : Option ℚ := none
  takeProfitMultiplier : Option ℚ := none
  deriving DecidableEq, Repr

/-- The `updateConfig` merge of tradingBot.js:
`config = \x7b ...config, ...newConfig \x7d`, with no validation. -/
def updateConfig (config : TradingConfig) (newConfig : PartialConfig) : TradingConfig :=
  { maxRiskPercent := newConfig.maxRiskPercent.getD config.maxRiskPercent
    minRiskPercent := newConfig.minRiskPercent.getD config.minRiskPercent
    maxLot := newConfig.maxLot.getD config.maxLot
    minLot := newConfig.minLot.getD config.minLot
    targetDailyGrowth := newConfig.targetDailyGrowth.getD config.targetDailyGrowth
    stopLossMultiplier := newConfig.stopLossMultiplier.getD config.stopLossMultiplier
    takeProfitMultiplier := newConfig.takeProfitMultiplier.getD config.takeProfitMultiplier }

/-- The TradingConfig invariant of the specification:
`0 < minRiskPercent ≤ maxRiskPercent` and `0 < minLot ≤ maxLot`. -/
def configInvariant (config : TradingConfig) : Prop :=
  0 < config.minRiskPercent ∧
  config.minRiskPercent ≤ config.maxRiskPercent ∧
  0 < config.minLot ∧
  config.minLot ≤ config.maxLot

/-- Counterexample to C6: `updateConfig` validates nothing, so the partial
update setting only `maxRiskPercent := 0.1` on the default config (which
satisfies the invariant) yields `minRiskPercent = 0.5 > maxRiskPercent`,
violating the invariant. -/
theorem updateConfig_invariant_counterexample :
    configInvariant DEFAULT_CONFIG ∧
    ¬ configInvariant (updateConfig DEFAULT_CONFIG
      { maxRiskPercent := some (1 / 10) }) := by
  constructor
  · norm_num [configInvariant, DEFAULT_CONFIG]
  · norm_num [configInvariant, updateConfig, DEFAULT_CONFIG]

/-- C6 amended: the unvalidated merge preserves the invariant whenever the
partial update leaves the four constrained fields (`minRiskPercent`,
`maxRiskPercent`, `minLot`, `maxLot`) unset; an update that sets one of
them can violate the invariant. -/
theorem updateConfig_invariant_preserved (config : TradingConfig)
    (newConfig : PartialConfig) (hinv : configInvariant config)
    (h1 : newConfig.minRiskPercent = none) (h2 : newConfig.maxRiskPercent = none)
    (h3 : newConfig.minLot = none) (h4 : newConfig.maxLot = none) :
    configInvariant (updateConfig config newConfig) := by
  simpa [configInvariant, updateConfig, h1, h2, h3, h4] using hinv

/-- Witness for the amended C6: updating only `targetDailyGrowth` keeps
the default config's invariant. -/
theorem updateConfig_invariant_preserved_witness :
    configInvariant (updateConfig DEFAULT_CONFIG { targetDailyGrowth := some 50 }) :=
  updateConfig_invariant_preserved DEFAULT_CONFIG
    { targetDailyGrowth := some 50 }
    (by norm_num [configInvariant, DEFAULT_CONFIG]) rfl rfl rfl rfl

/-- Analysis report form consumed by `processSymbol` in tradingBot.js. -/
structure AnalysisReport where
  price : ℚ
  direction : Direction
  confidence : ℚ
  dangerSignals : List DangerSignal
  deriving DecidableEq, Repr

/-- Default result returned by the catch-all of
`performTechnicalAnalysis` when any analysis step throws:
NEUTRAL, confidence 50, no danger signals, price of the last bar. -/
def analysisErrorFallback (lastClose : ℚ) : AnalysisReport :=
  { price := lastClose
    direction := Direction.NEUTRAL
    confidence := 50
    dangerSignals := [] }

/-- Outcome of `performTechnicalAnalysis` including its catch-all: an
exception in the analysis body (modelled as `Except.error`) is replaced
by `analysisErrorFallback`, never surfaced to the caller. -/
def performTechnicalAnalysisTotal (outcome : Except String AnalysisReport)
    (lastClose : ℚ) : AnalysisReport :=
  match outcome with
  | Except.ok r => r
  | Except.error _ => analysisErrorFallback lastClose

/-- Raw analysis value as `processSymbol` receives it, before the
malformed-result check (`direction` may be null, `confidence` may be
undefined). -/
structure RawAnalysis where
  price : Option ℚ
  direction : Option Direction
  confidence : Option ℚ
  dangerSignals : List DangerSignal
  deriving DecidableEq, Repr

/-- JavaScript `x || d` on an optional number: `d` when `x` is undefined
or 0 (both falsy). -/
def jsOrDefault (x : Option ℚ) (d : ℚ) : ℚ :=
  match x with
  | some v => if v = 0 then d else v
  | none => d

/-- Fallback `processSymbol` builds for an invalid analysis: a random BUY
or SELL direction (`coin` models `Math.random() > 0.5`), fixed
confidence 70, price from the last bar or 100. -/
def processSymbolFallback (coin : Bool) (lastClose : Option ℚ) : RawAnalysis :=
  { price := some (jsOrDefault lastClose 100)
    direction := some (if coin then Direction.BUY else Direction.SELL)
    confidence := some 70
    dangerSignals := [] }

/-- Malformed-result check of `processSymbol`:
`if (!analysis || !analysis.direction || analysis.confidence === undefined)`
replaces the analysis with `processSymbolFallback`. -/
def resolveAnalysis (analysis : Option RawAnalysis) (coin : Bool)
    (lastClose : Option ℚ) : RawAnalysis :=
  match analysis with
  | none => processSymbolFallback coin lastClose
  | some a =>
    if a.direction.isSome && a.confidence.isSome then a
    else processSymbolFallback coin lastClose

/-- Counterexample to C7: when the analysis body throws, the substituted
fallback (`performTechnicalAnalysis` catch-all) has confidence 50, not
the claimed fixed confidence 70. -/
theorem analysisFallback_confidence_counterexample :
    (performTechnicalAnalysisTotal (Except.error "indicator failure") 123).confidence
      = 50 ∧
    ¬ (performTechnicalAnalysisTotal (Except.error "indicator failure") 123).confidence
      = 70 := by
  constructor
  · rfl
  · norm_num [performTechnicalAnalysisTotal, analysisErrorFallback]

/-- C7 amended: an exception inside `performTechnicalAnalysis` is absorbed
into a NEUTRAL fallback with confidence 50; a malformed analysis result
(absent, missing direction, or undefined confidence) is replaced by
`processSymbol` with a fallback of fixed confidence 70 and a randomly
chosen BUY or SELL direction; in neither case is the error propagated. -/
theorem fallback_substitution (e : String) (lastClose : ℚ)
    (a : RawAnalysis) (coin : Bool) (lastCloseOpt : Option ℚ)
    (hmal : a.direction = none ∨ a.confidence = none) :
    performTechnicalAnalysisTotal (Except.error e) lastClose =
      analysisErrorFallback lastClose ∧
    (analysisErrorFallback lastClose).direction = Direction.NEUTRAL ∧
    (analysisErrorFallback lastClose).confidence = 50 ∧
    resolveAnalysis (some a) coin lastCloseOpt =
      processSymbolFallback coin lastCloseOpt ∧
    resolveAnalysis none coin lastCloseOpt =
      processSymbolFallback coin lastCloseOpt ∧
    (processSymbolFallback coin lastCloseOpt).confidence = some 70 ∧
    ((processSymbolFallback coin lastCloseOpt).direction = some Direction.BUY ∨
      (processSymbolFallback coin lastCloseOpt).direction = some Direction.SELL) := by
  refine ⟨rfl, rfl, rfl, ?_, rfl, rfl, ?_⟩
  · rcases hmal with h | h <;> simp [resolveAnalysis, h]
  · cases coin <;> simp [processSymbolFallback]

/-- Witness for the amended C7 at a concrete malformed analysis (missing
direction). -/
theorem fallback_substitution_witness :
    resolveAnalysis (some ⟨some 100, none, some 65, []⟩) true (some 100) =
      processSymbolFallback true (some 100) ∧
    (processSymbolFallback true (some 100)).confidence = some 70 :=
  ⟨(fallback_substitution "e" 0 ⟨some 100, none, some 65, []⟩ true (some 100)
      (Or.inl rfl)).2.2.2.1,
   (fallback_substitution "e" 0 ⟨some 100, none, some 65, []⟩ true (some 100)
      (Or.inl rfl)).2.2.2.2.2.1⟩

/-- Relative Strength Index of technicalIndicators.js: empty when fewer
than `period + 1` data points; otherwise Wilder-style smoothing of the
per-bar gains and losses, with `avgLoss = 0` replaced by 0.001 to avoid
division by zero, and `rsi = 100 - 100 / (1 + rs)`. -/
def rsi (data : List ℚ) (period : ℕ) : List ℚ :=
  if data.length < period + 1 then []
  else
    let changes := List.zipWith (fun prev next => next - prev) data data.tail
    let gains := changes.map (fun c => if c > 0 then c else 0)
    let losses := changes.map (fun c => if c < 0 then -c else 0)
    let avgGain0 := (gains.take period).sum / (period : ℚ)
    let avgLoss0 := (losses.take period).sum / (period : ℚ)
    let rsiOf := fun (avgGain avgLoss : ℚ) =>
      let rs := avgGain / (if avgLoss = 0 then 1 / 1000 else avgLoss)
      100 - 100 / (1 + rs)
    let step := fun (st : ℚ × ℚ × List ℚ) (gl : ℚ × ℚ) =>
      let avgGain := (st.1 * ((period : ℚ) - 1) + gl.1) / (period : ℚ)
      let avgLoss := (st.2.1 * ((period : ℚ) - 1) + gl.2) / (period : ℚ)
      (avgGain, avgLoss, st.2.2 ++ [rsiOf avgGain avgLoss])
    (((gains.drop period).zip (losses.drop period)).foldl step
      (avgGain0, avgLoss0, [rsiOf avgGain0 avgLoss0])).2.2

/-- JavaScript indexed read `xs[i]` for a possibly negative index:
`undefined` outside the array. -/
def jsGet (xs : List ℚ) (i : ℤ) : Option ℚ :=
  if 0 ≤ i then xs[i.toNat]? else none

/-- JavaScript `a > b` where either side may be `undefined` (false). -/
def jsGtB (a b : Option ℚ) : Bool :=
  match a, b with
  | some x, some y => decide (x > y)
  | _, _ => false

/-- The last element is the JS read `xs[xs.length - 1]`. -/
lemma jsGet_last (xs : List ℚ) : jsGet xs ((xs.length : ℤ) - 1) = xs.getLast? := by
  cases xs with
  | nil => simp [jsGet]
  | cons x xs =>
    have hn : (0 : ℤ) ≤ ((x :: xs).length : ℤ) - 1 := by
      simp [List.length_cons]
    have ht : (((x :: xs).length : ℤ) - 1).toNat = (x :: xs).length - 1 := by
      omega
    rw [jsGet, if_pos hn, ht, List.getLast?_eq_getElem?]

/-- Signal list emitted by `analyzeRSI` of analysisEngine.js, in push
order: oversold, overbought, the 30/70 boundary crossings, and the
5-bar price/RSI divergence. -/
def rsiSignals (closes : List ℚ) : List Signal :=
  let rsiValues := rsi closes 14
  let n : ℤ := rsiValues.length
  let m : ℤ := closes.length
  let currentRSI := jsGet rsiValues (n - 1)
  let s1 :=
    match currentRSI with
    | some r =>
      if r < 30 then [⟨"RSI Oversold", Direction.BUY, 70 + (30 - r) * 2⟩] else []
    | none => []
  let s2 :=
    match currentRSI with
    | some r =>
      if r > 70 then [⟨"RSI Overbought", Direction.SELL, 70 + (r - 70) * 2⟩] else []
    | none => []
  let s3 :=
    match currentRSI, jsGet rsiValues (n - 2) with
    | some r, some p =>
      if r > 30 ∧ p ≤ 30 then [⟨"RSI Crosses Above 30", Direction.BUY, 65⟩] else []
    | _, _ => []
  let s4 :=
    match currentRSI, jsGet rsiValues (n - 2) with
    | some r, some p =>
      if r < 70 ∧ p ≥ 70 then [⟨"RSI Crosses Below 70", Direction.SELL, 65⟩] else []
    | _, _ => []
  let priceUp := jsGtB (jsGet closes (m - 1)) (jsGet closes (m - 5))
  let rsiUp := jsGtB (jsGet rsiValues (n - 1)) (jsGet rsiValues (n - 5))
  let s5 :=
    if priceUp && !rsiUp then [⟨"Bearish RSI Divergence", Direction.SELL, 75⟩]
    else if !priceUp && rsiUp then [⟨"Bullish RSI Divergence", Direction.BUY, 75⟩]
    else []
  s1 ++ s2 ++ s3 ++ s4 ++ s5

/-- RSI analyzer `analyzeRSI` of analysisEngine.js: the emitted signals
scored by the shared block with cap 90. -/
def analyzeRSI (closes : List ℚ) : AnalyzerResult :=
  { direction := (scoreSignals 90 (rsiSignals closes)).1
    confidence := (scoreSignals 90 (rsiSignals closes)).2
    signals := rsiSignals closes }

/-- Confidence produced by the shared scoring block never exceeds the cap
(for caps ≥ 50). -/
lemma scoreSignals_confidence_le (cap : ℚ) (signals : List Signal)
    (hcap : 50 ≤ cap) : (scoreSignals cap signals).2 ≤ cap := by
  unfold scoreSignals
  split_ifs with h1 h2 h3
  · simp [min_le_iff]
  · simp [min_le_iff]
  · exact hcap
  · exact hcap

/-- C8: whenever the final RSI(14) value r of the closes series is
strictly below 30, `analyzeRSI` emits a signal named "RSI Oversold" with
direction BUY and strength exactly 70 + 2·(30 − r), and the analyzer's
confidence is clamped to at most 90. -/
theorem analyzeRSI_oversold (closes : List ℚ) (r : ℚ)
    (hlast : (rsi closes 14).getLast? = some r) (hr : r < 30) :
    (⟨"RSI Oversold", Direction.BUY, 70 + 2 * (30 - r)⟩ : Signal) ∈
      (analyzeRSI closes).signals ∧
    (analyzeRSI closes).confidence ≤ 90 := by
  have hcur : jsGet (rsi closes 14) (((rsi closes 14).length : ℤ) - 1) = some r := by
    rw [jsGet_last]
    exact hlast
  constructor
  · have h2 : (70 + 2 * (30 - r) : ℚ) = 70 + (30 - r) * 2 := by ring
    show _ ∈ rsiSignals closes
    rw [h2]
    simp only [rsiSignals, hcur]
    simp [hr]
  · exact scoreSignals_confidence_le 90 (rsiSignals closes) (by norm_num)

/-- Fifteen closes ending with thirteen consecutive 3-point drops: one
gain of 11 against losses totalling 39 makes the first smoothed RSI
exactly 22. -/
def closes22 : List ℚ :=
  [100, 111, 108, 105, 102, 99, 96, 93, 90, 87, 84, 81, 78, 75, 72]

/-- Witness for C8: on `closes22` the final RSI(14) is 22 < 30, so the
analyzer emits "RSI Oversold" BUY with strength 70 + 2·8 = 86 and its
confidence stays at most 90. -/
theorem analyzeRSI_oversold_witness :
    (rsi closes22 14).getLast? = some 22 ∧
    (⟨"RSI Oversold", Direction.BUY, 86⟩ : Signal) ∈ (analyzeRSI closes22).signals ∧
    (analyzeRSI closes22).confidence ≤ 90 := by
  have hlast : (rsi closes22 14).getLast? = some 22 := by norm_num [rsi, closes22]
  have h := analyzeRSI_oversold closes22 22 hlast (by norm_num)
  refine ⟨hlast, ?_, h.2⟩
  have h1 := h.1
  norm_num at h1
  exact h1

/-- Price bar consumed by the candlestick analyzer (the JS field `open`
is a Lean keyword and is rendered `open_`). -/
structure Bar where
  open_ : ℚ
  high : ℚ
  low : ℚ
  close : ℚ
  volume : ℚ
  deriving DecidableEq, Repr

/-- Candlestick analyzer `analyzeCandlestickPatterns` of
analysisEngine.js on the most recent 5 bars (`barData.slice(-5)`), with
its pattern list scored by the shared block with cap 85; `none` models
the JS exception on an empty bar list (caught by the caller).  The Doji
guard `bodySize / totalSize < 0.1 && totalSize > 0` keeps the JS outcome
under ℚ division-by-zero semantics because the conjunct `totalSize > 0`
is false exactly when the JS ratio is NaN or infinite. -/
def analyzeCandlestickPatterns (barData : List Bar) : Option AnalyzerResult :=
  let recentBars := barData.drop (barData.length - 5)
  match recentBars.getLast? with
  | none => none
  | some lastBar =>
    let bodySize := |lastBar.open_ - lastBar.close|
    let totalSize := lastBar.high - lastBar.low
    let doji :=
      if bodySize / totalSize < 1 / 10 ∧ 0 < totalSize then
        [⟨"Doji", Direction.NEUTRAL, 50⟩] else []
    let hammer :=
      if 0 < bodySize ∧ bodySize * 2 < min lastBar.open_ lastBar.close - lastBar.low ∧
          lastBar.high - max lastBar.open_ lastBar.close < bodySize * (1 / 2) then
        [⟨"Hammer", Direction.BUY, 65⟩] else []
    let shootingStar :=
      if 0 < bodySize ∧ bodySize * 2 < lastBar.high - max lastBar.open_ lastBar.close ∧
          min lastBar.open_ lastBar.close - lastBar.low < bodySize * (1 / 2) then
        [⟨"Shooting Star", Direction.SELL, 65⟩] else []
    let engulfing :=
      if 2 ≤ recentBars.length then
        match recentBars[recentBars.length - 2]? with
        | some previousBar =>
          (if previousBar.close < previousBar.open_ ∧ lastBar.open_ < lastBar.close ∧
              lastBar.open_ < previousBar.close ∧ previousBar.open_ < lastBar.close then
            [⟨"Bullish Engulfing", Direction.BUY, 70⟩] else []) ++
          (if previousBar.open_ < previousBar.close ∧ lastBar.close < lastBar.open_ ∧
              previousBar.close < lastBar.open_ ∧ lastBar.close < previousBar.open_ then
            [⟨"Bearish Engulfing", Direction.SELL, 70⟩] else [])
        | none => []
      else []
    let stars :=
      if 3 ≤ recentBars.length then
        match recentBars[recentBars.length - 3]?, recentBars[recentBars.length - 2]? with
        | some firstBar, some middleBar =>
          (if firstBar.close < firstBar.open_ ∧
              |middleBar.open_ - middleBar.close| <
                |firstBar.open_ - firstBar.close| * (3 / 10) ∧
              lastBar.open_ < lastBar.close ∧
              (firstBar.open_ + firstBar.close) / 2 < lastBar.close then
            [⟨"Morning Star", Direction.BUY, 75⟩] else []) ++
          (if firstBar.open_ < firstBar.close ∧
              |middleBar.open_ - middleBar.close| <
                |firstBar.open_ - firstBar.close| * (3 / 10) ∧
              lastBar.close < lastBar.open_ ∧
              lastBar.close < (firstBar.open_ + firstBar.close) / 2 then
            [⟨"Evening Star", Direction.SELL, 75⟩] else [])
        | _, _ => []
      else []
    let patterns := doji ++ hammer ++ shootingStar ++ engulfing ++ stars
    some { direction := (scoreSignals 85 patterns).1
           confidence := (scoreSignals 85 patterns).2
           signals := patterns }

/-- C5: the shared scoring rule of every analyzer: when the summed BUY
strength exceeds the summed SELL strength the result is BUY with
confidence min(cap, 50 + round((buy − sell) / 2)), symmetric for SELL,
otherwise NEUTRAL with confidence 50; `analyzeRSI` instantiates the rule
with its cap 90 (as do Moving Averages, MACD, Bollinger Bands,
Support/Resistance and Trend Strength in the source) and
`analyzeCandlestickPatterns` with its cap 85 (as do Volume and
Fibonacci). -/
theorem analyzer_scoring_rule (cap : ℚ) (signals : List Signal)
    (closes : List ℚ) :
    (buyStrength signals > sellStrength signals →
      scoreSignals cap signals =
        (Direction.BUY,
          min cap (50 + (jsRound ((buyStrength signals - sellStrength signals) / 2) : ℚ)))) ∧
    (sellStrength signals > buyStrength signals →
      scoreSignals cap signals =
        (Direction.SELL,
          min cap (50 + (jsRound ((sellStrength signals - buyStrength signals) / 2) : ℚ)))) ∧
    (buyStrength signals = sellStrength signals →
      scoreSignals cap signals = (Direction.NEUTRAL, 50)) ∧
    ((analyzeRSI closes).direction = (scoreSignals 90 (rsiSignals closes)).1 ∧
      (analyzeRSI closes).confidence = (scoreSignals 90 (rsiSignals closes)).2) ∧
    (∀ (barData : List Bar) (res : AnalyzerResult),
      analyzeCandlestickPatterns barData = some res →
      res.direction = (scoreSignals 85 res.signals).1 ∧
      res.confidence = (scoreSignals 85 res.signals).2) := by
  refine ⟨?_, ?_, ?_, ⟨rfl, rfl⟩, ?_⟩
  · intro h
    have hne : signals.length > 0 := by
      rcases signals with _ | ⟨a, l⟩
      · simp [buyStrength, sellStrength] at h
      · simp
    unfold scoreSignals
    rw [if_pos hne, if_pos h]
  · intro h
    have hne : signals.length > 0 := by
      rcases signals with _ | ⟨a, l⟩
      · simp [buyStrength, sellStrength] at h
      · simp
    have h1 : ¬ (buyStrength signals > sellStrength signals) := lt_asymm h
    unfold scoreSignals
    rw [if_pos hne, if_neg h1, if_pos h]
  · intro h
    by_cases hlen : signals.length > 0
    · unfold scoreSignals
      rw [if_pos hlen, if_neg (by rw [h]; exact lt_irrefl _),
        if_neg (by rw [h]; exact lt_irrefl _)]
    · unfold scoreSignals
      rw [if_neg hlen]
  · intro barData res h
    unfold analyzeCandlestickPatterns at h
    cases hg : (barData.drop (barData.length - 5)).getLast? with
    | none =>
      simp only [hg] at h
      exact Option.noConfusion h
    | some lastBar =>
      simp only [hg] at h
      injection h with h2
      subst h2
      exact ⟨rfl, rfl⟩

/-- Witness for C5: one BUY signal of strength 70 against no SELL signals
gives direction BUY with confidence min(90, 50 + round(35)) = 85. -/
theorem analyzer_scoring_rule_witness :
    scoreSignals 90 [⟨"Golden Cross", Direction.BUY, 70⟩] = (Direction.BUY, 85) := by
  have hbuy : buyStrength [⟨"Golden Cross", Direction.BUY, 70⟩] = 70 := by
    simp [buyStrength]
  have hsell : sellStrength [⟨"Golden Cross", Direction.BUY, 70⟩] = 0 := by
    simp [sellStrength]
  have h := (analyzer_scoring_rule 90 [⟨"Golden Cross", Direction.BUY, 70⟩] []).1
    (by rw [hbuy, hsell]; norm_num)
  rw [h, hbuy, hsell]
  norm_num [jsRound]

/-- JavaScript `Math.max(...prices)` for the non-empty lists this code
feeds it (the empty case, -Infinity in JS, is never used here). -/
def listMax : List ℚ → ℚ
  | [] => 0
  | x :: xs => xs.foldl max x

/-- JavaScript `Math.min(...prices)` for non-empty lists. -/
def listMin : List ℚ → ℚ
  | [] => 0
  | x :: xs => xs.foldl min x

/-- Retracement level prices of fibonacciCalculator.js in the order
JavaScript `Object.entries(levels)` yields them: the integer-like keys
"0" and "1" first (ascending), then "0.236", "0.382", "0.5", "0.618",
"0.786" in insertion order. -/
def fibLevelPrices (highestPrice lowestPrice : ℚ) (isUptrend : Bool) : List ℚ :=
  let range := highestPrice - lowestPrice
  [if isUptrend then highestPrice else lowestPrice,
   if isUptrend then lowestPrice else highestPrice,
   if isUptrend then highestPrice - range * 0.236 else lowestPrice + range * 0.236,
   if isUptrend then highestPrice - range * 0.382 else lowestPrice + range * 0.382,
   if isUptrend then highestPrice - range * 0.5 else lowestPrice + range * 0.5,
   if isUptrend then highestPrice - range * 0.618 else lowestPrice + range * 0.618,
   if isUptrend then highestPrice - range * 0.786 else lowestPrice + range * 0.786]

/-- Extension level prices of fibonacciCalculator.js (keys "1.272",
"1.618", "2.618", none integer-like, so insertion order). -/
def fibExtensionPrices (highestPrice lowestPrice : ℚ) (isUptrend : Bool) : List ℚ :=
  let range := highestPrice - lowestPrice
  [if isUptrend then highestPrice + range * 0.272 else lowestPrice - range * 0.272,
   if isUptrend then highestPrice + range * 0.618 else lowestPrice - range * 0.618,
   if isUptrend then highestPrice + range * 1.618 else lowestPrice - range * 1.618]

/-- Running state of the support/resistance scan in
`calculateFibonacciLevels` of fibonacciCalculator.js. -/
structure SRState where
  support : ℚ
  supportDist : ℚ
  resistance : ℚ
  resistanceDist : ℚ
  deriving DecidableEq, Repr

/-- Loop body of the scan: a level strictly below the current price that
is closer than the best support so far replaces it; otherwise a level
strictly above that is closer than the best resistance replaces that. -/
def srStep (currentPrice : ℚ) (st : SRState) (price : ℚ) : SRState :=
  let distance := |currentPrice - price|
  if price < currentPrice ∧ distance < st.supportDist then
    { st with support := price, supportDist := distance }
  else if price > currentPrice ∧ distance < st.resistanceDist then
    { st with resistance := price, resistanceDist := distance }
  else st

/-- Support and resistance of `calculateFibonacciLevels` in
fibonacciCalculator.js: starting from the list minimum/maximum, scan the
retracement then the extension levels for the closest level strictly
below/above the most recent price. -/
def calculateFibonacciLevels (prices : List ℚ) (isUptrend : Bool) : ℚ × ℚ :=
  let highestPrice := listMax prices
  let lowestPrice := listMin prices
  let currentPrice := (prices.getLast?).getD 0
  let candidates := fibLevelPrices highestPrice lowestPrice isUptrend ++
    fibExtensionPrices highestPrice lowestPrice isUptrend
  let st := candidates.foldl (srStep currentPrice)
    { support := lowestPrice
      supportDist := |currentPrice - lowestPrice|
      resistance := highestPrice
      resistanceDist := |highestPrice - currentPrice| }
  (st.support, st.resistance)

/-- One scan step keeps the support at or below and the resistance at or
above the current price. -/
lemma srStep_invariant (currentPrice : ℚ) (st : SRState) (p : ℚ)
    (h1 : st.support ≤ currentPrice) (h2 : currentPrice ≤ st.resistance) :
    (srStep currentPrice st p).support ≤ currentPrice ∧
    currentPrice ≤ (srStep currentPrice st p).resistance := by
  unfold srStep
  dsimp only
  split_ifs with hA hB
  · exact ⟨le_of_lt hA.1, h2⟩
  · exact ⟨h1, le_of_lt hB.1⟩
  · exact ⟨h1, h2⟩

/-- The whole scan keeps the support/resistance bracket invariant. -/
lemma srFold_invariant (currentPrice : ℚ) :
    ∀ (cands : List ℚ) (st : SRState),
      st.support ≤ currentPrice → currentPrice ≤ st.resistance →
      (cands.foldl (srStep currentPrice) st).support ≤ currentPrice ∧
      currentPrice ≤ (cands.foldl (srStep currentPrice) st).resistance := by
  intro cands
  induction cands with
  | nil => intro st h1 h2; exact ⟨h1, h2⟩
  | cons p ps ih =>
    intro st h1 h2
    have h := srStep_invariant currentPrice st p h1 h2
    exact ih _ h.1 h.2

/-- A fold of `max` dominates its initial value. -/
lemma foldl_max_le_init (xs : List ℚ) : ∀ (a : ℚ), a ≤ xs.foldl max a := by
  induction xs with
  | nil => intro a; exact le_refl a
  | cons y ys ih => intro a; exact le_trans (le_max_left a y) (ih (max a y))

/-- A fold of `max` dominates every list element. -/
lemma mem_le_foldl_max (xs : List ℚ) : ∀ (a x : ℚ), x ∈ xs → x ≤ xs.foldl max a := by
  induction xs with
  | nil => intro a x hx; cases hx
  | cons y ys ih =>
    intro a x hx
    cases hx with
    | head => exact le_trans (le_max_right a y) (foldl_max_le_init ys (max a y))
    | tail _ h => exact ih (max a y) x h

/-- Every element is at most the JS `Math.max` of the list. -/
lemma le_listMax_of_mem (xs : List ℚ) (x : ℚ) (hx : x ∈ xs) : x ≤ listMax xs := by
  cases xs with
  | nil => cases hx
  | cons y ys =>
    cases hx with
    | head => exact foldl_max_le_init ys x
    | tail _ h => exact mem_le_foldl_max ys y x h

/-- A fold of `min` is below its initial value. -/
lemma foldl_min_le_init (xs : List ℚ) : ∀ (a : ℚ), xs.foldl min a ≤ a := by
  induction xs with
  | nil => intro a; exact le_refl a
  | cons y ys ih => intro a; exact le_trans (ih (min a y)) (min_le_left a y)

/-- A fold of `min` is below every list element. -/
lemma foldl_min_le_mem (xs : List ℚ) : ∀ (a x : ℚ), x ∈ xs → xs.foldl min a ≤ x := by
  induction xs with
  | nil => intro a x hx; cases hx
  | cons y ys ih =>
    intro a x hx
    cases hx with
    | head => exact le_trans (foldl_min_le_init ys (min a y)) (min_le_right a y)
    | tail _ h => exact ih (min a y) x h

/-- The JS `Math.min` of the list is at most every element. -/
lemma listMin_le_of_mem (xs : List ℚ) (x : ℚ) (hx : x ∈ xs) : listMin xs ≤ x := by
  cases xs with
  | nil => cases hx
  | cons y ys =>
    cases hx with
    | head => exact foldl_min_le_init ys x
    | tail _ h => exact foldl_min_le_mem ys y x h

/-- C10: for every non-empty price list and either trend flag, the
support and resistance returned by `calculateFibonacciLevels` bracket
the most recent price: support ≤ prices[last] ≤ resistance. -/
theorem calculateFibonacciLevels_brackets (prices : List ℚ) (isUptrend : Bool)
    (x : ℚ) (hlast : prices.getLast? = some x) :
    (calculateFibonacciLevels prices isUptrend).1 ≤ x ∧
    x ≤ (calculateFibonacciLevels prices isUptrend).2 := by
  have hmem : x ∈ prices := List.mem_of_mem_getLast? hlast
  have h := srFold_invariant x
    (fibLevelPrices (listMax prices) (listMin prices) isUptrend ++
      fibExtensionPrices (listMax prices) (listMin prices) isUptrend)
    { support := listMin prices
      supportDist := |x - listMin prices|
      resistance := listMax prices
      resistanceDist := |listMax prices - x| }
    (listMin_le_of_mem prices x hmem) (le_listMax_of_mem prices x hmem)
  simp only [calculateFibonacciLevels, hlast, Option.getD_some]
  exact h

/-- Witness for C10 on the price list [1, 3, 2]. -/
theorem calculateFibonacciLevels_brackets_witness :
    (calculateFibonacciLevels [1, 3, 2] true).1 ≤ 2 ∧
    2 ≤ (calculateFibonacciLevels [1, 3, 2] true).2 :=
  calculateFibonacciLevels_brackets [1, 3, 2] true 2 rfl

/-- Named retracement levels of `calculateFibonacciRetracementLevels` in
analysisEngine.js, in array order. -/
def calculateFibonacciRetracementLevels (highestPoint lowestPoint : ℚ)
    (isUptrend : Bool) : List (String × ℚ) :=
  let range := highestPoint - lowestPoint
  [("0", if isUptrend then highestPoint else lowestPoint),
   ("0.236", if isUptrend then highestPoint - range * 0.236
             else lowestPoint + range * 0.236),
   ("0.382", if isUptrend then highestPoint - range * 0.382
             else lowestPoint + range * 0.382),
   ("0.5", if isUptrend then highestPoint - range * 0.5
           else lowestPoint + range * 0.5),
   ("0.618", if isUptrend then highestPoint - range * 0.618
             else lowestPoint + range * 0.618),
   ("0.786", if isUptrend then highestPoint - range * 0.786
             else lowestPoint + range * 0.786),
   ("1", if isUptrend then lowestPoint else highestPoint)]

/-- Price of the named level, as `fibLevels.find((level) => ...)` style
lookups in analysisEngine.js resolve it. -/
def levelPrice (levels : List (String × ℚ)) (n : String) : Option ℚ :=
  (levels.find? (fun p => p.1 == n)).map (fun p => p.2)

/-- C9: for highestPoint ≥ lowestPoint the uptrend retracement levels
satisfy level(0.236) ≥ level(0.382) ≥ level(0.5) ≥ level(0.618) ≥
level(0.786), every level lies within [lowestPoint, highestPoint],
level(0) = highestPoint and level(1) = lowestPoint; for the downtrend
the mirrored ordering holds with level(0) = lowestPoint and
level(1) = highestPoint. -/
theorem fibRetracement_ordering (highestPoint lowestPoint : ℚ)
    (hle : lowestPoint ≤ highestPoint) :
    (levelPrice (calculateFibonacciRetracementLevels highestPoint lowestPoint true)
        "0" = some highestPoint ∧
      levelPrice (calculateFibonacciRetracementLevels highestPoint lowestPoint true)
        "1" = some lowestPoint ∧
      ∃ a b c d e,
        levelPrice (calculateFibonacciRetracementLevels highestPoint lowestPoint true)
          "0.236" = some a ∧
        levelPrice (calculateFibonacciRetracementLevels highestPoint lowestPoint true)
          "0.382" = some b ∧
        levelPrice (calculateFibonacciRetracementLevels highestPoint lowestPoint true)
          "0.5" = some c ∧
        levelPrice (calculateFibonacciRetracementLevels highestPoint lowestPoint true)
          "0.618" = some d ∧
        levelPrice (calculateFibonacciRetracementLevels highestPoint lowestPoint true)
          "0.786" = some e ∧
        b ≤ a ∧ c ≤ b ∧ d ≤ c ∧ e ≤ d ∧ lowestPoint ≤ e ∧ a ≤ highestPoint) ∧
    (levelPrice (calculateFibonacciRetracementLevels highestPoint lowestPoint false)
        "0" = some lowestPoint ∧
      levelPrice (calculateFibonacciRetracementLevels highestPoint lowestPoint false)
        "1" = some highestPoint ∧
      ∃ a b c d e,
        levelPrice (calculateFibonacciRetracementLevels highestPoint lowestPoint false)
          "0.236" = some a ∧
        levelPrice (calculateFibonacciRetracementLevels highestPoint lowestPoint false)
          "0.382" = some b ∧
        levelPrice (calculateFibonacciRetracementLevels highestPoint lowestPoint false)
          "0.5" = some c ∧
        levelPrice (calculateFibonacciRetracementLevels highestPoint lowestPoint false)
          "0.618" = some d ∧
        levelPrice (calculateFibonacciRetracementLevels highestPoint lowestPoint false)
          "0.786" = some e ∧
        a ≤ b ∧ b ≤ c ∧ c ≤ d ∧ d ≤ e ∧ lowestPoint ≤ a ∧ e ≤ highestPoint) := by
  constructor
  · refine ⟨?_, ?_, ?_⟩
    · simp [levelPrice, calculateFibonacciRetracementLevels]
    · simp [levelPrice, calculateFibonacciRetracementLevels]
    · refine ⟨highestPoint - (highestPoint - lowestPoint) * 0.236,
        highestPoint - (highestPoint - lowestPoint) * 0.382,
        highestPoint - (highestPoint - lowestPoint) * 0.5,
        highestPoint - (highestPoint - lowestPoint) * 0.618,
        highestPoint - (highestPoint - lowestPoint) * 0.786,
        ?_, ?_, ?_, ?_, ?_, ?_, ?_, ?_, ?_, ?_, ?_⟩
      · simp [levelPrice, calculateFibonacciRetracementLevels]
      · simp [levelPrice, calculateFibonacciRetracementLevels]
      · simp [levelPrice, calculateFibonacciRetracementLevels]
      · simp [levelPrice, calculateFibonacciRetracementLevels]
      · simp [levelPrice, calculateFibonacciRetracementLevels]
      · linarith
      · linarith
      · linarith
      · linarith
      · linarith
      · linarith
  · refine ⟨?_, ?_, ?_⟩
    · simp [levelPrice, calculateFibonacciRetracementLevels]
    · simp [levelPrice, calculateFibonacciRetracementLevels]
    · refine ⟨lowestPoint + (highestPoint - lowestPoint) * 0.236,
        lowestPoint + (highestPoint - lowestPoint) * 0.382,
        lowestPoint + (highestPoint - lowestPoint) * 0.5,
        lowestPoint + (highestPoint - lowestPoint) * 0.618,
        lowestPoint + (highestPoint - lowestPoint) * 0.786,
        ?_, ?_, ?_, ?_, ?_, ?_, ?_, ?_, ?_, ?_, ?_⟩
      · simp [levelPrice, calculateFibonacciRetracementLevels]
      · simp [levelPrice, calculateFibonacciRetracementLevels]
      · simp [levelPrice, calculateFibonacciRetracementLevels]
      · simp [levelPrice, calculateFibonacciRetracementLevels]
      · simp [levelPrice, calculateFibonacciRetracementLevels]
      · linarith
      · linarith
      · linarith
      · linarith
      · linarith
      · linarith

/-- Witness for C9 at highestPoint 2, lowestPoint 1. -/
theorem fibRetracement_ordering_witness :
    levelPrice (calculateFibonacciRetracementLevels 2 1 true) "0" = some 2 ∧
    levelPrice (calculateFibonacciRetracementLevels 2 1 true) "1" = some 1 :=
  ⟨(fibRetracement_ordering 2 1 (by norm_num)).1.1,
   (fibRetracement_ordering 2 1 (by norm_num)).1.2.1⟩
